import Mathlib

/-!
# gstsubsink: closed-caption decoders, dispatcher and event observer

A shallow embedding of `src/gstsubsink.c`.

* `guint8` values are `Fin 256`; `gsize` indices are natural numbers reduced
  modulo `gsize_modulus` after every arithmetic operation, `guint` indices
  modulo `guint_modulus`.
* A C array read `data[i]` is `read_byte data i`, which faults when `i` is
  outside the array.
* Loops run on fuel; the entry points supply the fuel and the theorems show it
  is never exhausted.
* `GString` contents and `gchar *` values are lists of bytes (the bytes in
  front of the terminating NUL); `strlen` and `g_strdup` stop at the first NUL
  byte of such a list.
* The base class and the sink pad are a `GstBaseSinkHost` over a host state of
  its own: the parent class event handler and the current caps of the pad.
  The theorems hold for every host.
* What the element does to its surroundings is returned as a list of
  `SinkEffect`: `new-buffer` signal emissions, calls of the parent class event
  handler, and `gst_event_unref` calls.
* Log output (`GST_DEBUG_OBJECT`, `GST_INFO_OBJECT`, `GST_WARNING_OBJECT`),
  reference counting of caps and `gst_buffer_unmap` leave no trace in the model.
-/

namespace SubSink

/-! ## Machine integers and memory reads -/

/-- An unsigned 8-bit value. -/
abbrev guint8 := Fin 256

/-- Number of values of a `gsize` (64-bit target). -/
def gsize_modulus : Nat := 18446744073709551616

/-- Number of values of a `guint`. -/
def guint_modulus : Nat := 4294967296

/-- Ways in which running the embedded code can fail to produce a result. -/
inductive Fault where
  | out_of_bounds
  | out_of_fuel
  deriving DecidableEq, Repr

deriving instance DecidableEq for Except

/-- The read `data[i]` of a C array holding exactly the bytes of `data`. -/
def read_byte (data : List guint8) (i : Nat) : Except Fault guint8 :=
  match data[i]? with
  | some b => .ok b
  | none => .error .out_of_bounds

/-! ## Decoders (`gstsubsink.c` lines 33 to 68) -/

/-- The call `g_string_append_c(out, c)`. -/
def g_string_append_c (out : List guint8) (c : guint8) : List guint8 :=
  out ++ [c]

/-- The `for (gsize i = 0; i + 1 < size; i += 2)` loop of
`decode_cea608_to_utf8`, entered with index `i` and string `out`. -/
def decode_cea608_loop (data : List guint8) (size : Nat) :
    Nat → Nat → List guint8 → Except Fault (List guint8)
  | fuel, i, out =>
    if (i + 1) % gsize_modulus < size then
      match fuel with
      | 0 => .error .out_of_fuel
      | fuel + 1 =>
        match read_byte data i with
        | .error e => .error e
        | .ok cc1 =>
          match read_byte data ((i + 1) % gsize_modulus) with
          | .error e => .error e
          | .ok cc2 =>
            let out := if cc1.val ≥ 0x20 ∧ cc1.val ≤ 0x7F then g_string_append_c out cc1 else out
            let out := if cc2.val ≥ 0x20 ∧ cc2.val ≤ 0x7F then g_string_append_c out cc2 else out
            decode_cea608_loop data size fuel ((i + 2) % gsize_modulus) out
    else .ok out

/-- The function `decode_cea608_to_utf8(data, size)`: `none` is the `NULL`
return, `some s` the returned string. -/
def decode_cea608_to_utf8 (data : List guint8) (size : Nat) :
    Except Fault (Option (List guint8)) :=
  match decode_cea608_loop data size size 0 [] with
  | .error e => .error e
  | .ok out => if out.length = 0 then .ok none else .ok (some out)

/-- The `for (gsize i = 0; i < size; ++i)` loop of `decode_cea708_to_utf8`,
entered with index `i` and string `out`. -/
def decode_cea708_loop (data : List guint8) (size : Nat) :
    Nat → Nat → List guint8 → Except Fault (List guint8)
  | fuel, i, out =>
    if i < size then
      match fuel with
      | 0 => .error .out_of_fuel
      | fuel + 1 =>
        match read_byte data i with
        | .error e => .error e
        | .ok cc =>
          let out := if cc.val ≥ 0x20 ∧ cc.val ≤ 0x7E then g_string_append_c out cc else out
          decode_cea708_loop data size fuel ((i + 1) % gsize_modulus) out
    else .ok out

/-- The function `decode_cea708_to_utf8(data, size)`: `none` is the `NULL`
return, `some s` the returned string. -/
def decode_cea708_to_utf8 (data : List guint8) (size : Nat) :
    Except Fault (Option (List guint8)) :=
  match decode_cea708_loop data size size 0 [] with
  | .error e => .error e
  | .ok out => if out.length = 0 then .ok none else .ok (some out)

/-! ## Reference definitions of the decoders, following the specification -/

/-- The bytes of `b` that lie in a complete 2-byte cell (indices `2k`, `2k+1`):
a final unpaired byte is left out. -/
def cea608_cells (b : List guint8) : List guint8 :=
  b.take (2 * (b.length / 2))

/-- Reference CEA-608 decoder: of the bytes in complete cells, those in
`[0x20, 0x7F]`, in their original order; `none` when none is kept. -/
def cea608_reference (b : List guint8) : Option (List guint8) :=
  let kept := (cea608_cells b).filter (fun v => decide (0x20 ≤ v.val ∧ v.val ≤ 0x7F))
  if kept = [] then none else some kept

/-- Reference CEA-708 decoder: of all bytes, those in `[0x20, 0x7E]`, in their
original order; `none` when none is kept. -/
def cea708_reference (b : List guint8) : Option (List guint8) :=
  let kept := b.filter (fun v => decide (0x20 ≤ v.val ∧ v.val ≤ 0x7E))
  if kept = [] then none else some kept

/-- The text denoted by a string of bytes, one character per byte. -/
def text_of_bytes (t : List guint8) : String :=
  String.mk (t.map (fun v => Char.ofNat v.val))

/-- What one pass over complete cells keeps, by recursion on the cells
(auxiliary, used to relate the index loop to `cea608_reference`). -/
def cea608_kept : List guint8 → List guint8
  | cc1 :: cc2 :: rest =>
    (if cc1.val ≥ 0x20 ∧ cc1.val ≤ 0x7F then [cc1] else []) ++
      ((if cc2.val ≥ 0x20 ∧ cc2.val ≤ 0x7F then [cc2] else []) ++ cea608_kept rest)
  | _ => []

/-! ## Data model -/

/-- A `GstClockTime` (`guint64`). -/
abbrev GstClockTime := Nat

/-- The value `GST_CLOCK_TIME_NONE`. -/
def GST_CLOCK_TIME_NONE : GstClockTime := 18446744073709551615

/-- A `GstBuffer`: its payload bytes, its presentation and decoding timestamps,
and whether `gst_buffer_map(buffer, &map, GST_MAP_READ)` succeeds on it. -/
structure GstBuffer where
  data : List guint8
  pts : GstClockTime
  dts : GstClockTime
  readable : Bool
  deriving DecidableEq, Repr

/-- A `GstMapInfo` filled in by a successful `gst_buffer_map`. -/
structure GstMapInfo where
  data : List guint8
  size : Nat
  deriving DecidableEq, Repr

/-- The call `gst_buffer_map(buffer, &map, GST_MAP_READ)`: `none` when it
returns `FALSE`. -/
def gst_buffer_map (buffer : GstBuffer) : Option GstMapInfo :=
  if buffer.readable then some ⟨buffer.data, buffer.data.length⟩ else none

/-- The call `gst_buffer_new_wrapped(data, size)`: a fresh readable buffer over
the first `size` bytes of `data`, with no timestamps. -/
def gst_buffer_new_wrapped (data : List guint8) (size : Nat) : GstBuffer :=
  ⟨data.take size, GST_CLOCK_TIME_NONE, GST_CLOCK_TIME_NONE, true⟩

/-- The C `strlen` of a string whose bytes (a NUL follows them) are `s`: the
number of bytes in front of the first NUL. -/
def strlen (s : List guint8) : Nat :=
  (s.takeWhile (fun c => decide (c.val ≠ 0))).length

/-- The call `g_strdup(s)`: a copy of the bytes in front of the first NUL. -/
def g_strdup (s : List guint8) : List guint8 :=
  s.takeWhile (fun c => decide (c.val ≠ 0))

/-- Fixed `GstCaps`, as carried by a caps event and held as the current caps
of a pad: the one structure, with its name and its fields. -/
structure GstCaps where
  name : String
  fields : List (String × String)
  deriving DecidableEq, Repr

/-- The call `gst_structure_get_name(gst_caps_get_structure(caps, 0))`. -/
def gst_structure_get_name (caps : GstCaps) : String :=
  caps.name

/-- The call `g_str_has_prefix(str, pre)`. -/
def g_str_has_prefix (str pre : String) : Bool :=
  pre.data.isPrefixOf str.data

/-- A `GstSegment`, without its floating-point rate. -/
structure GstSegment where
  format : Nat
  start : Nat
  stop : Nat
  position : Nat
  deriving DecidableEq, Repr

/-- A `GstEvent`, by event type, with what the parse functions extract. -/
inductive GstEvent where
  | GST_EVENT_FLUSH_START
  | GST_EVENT_FLUSH_STOP
  | GST_EVENT_CAPS (caps : GstCaps)
  | GST_EVENT_SEGMENT (segment : GstSegment)
  | GST_EVENT_TAG (taglist : List (String × String))
  | GST_EVENT_TOC (entries : List String) (updated : Bool)
  | GST_EVENT_OTHER (type_name : String)
  deriving DecidableEq, Repr

/-- The values of `GstFlowReturn`. -/
inductive GstFlowReturn where
  | GST_FLOW_OK
  | GST_FLOW_NOT_LINKED
  | GST_FLOW_FLUSHING
  | GST_FLOW_EOS
  | GST_FLOW_NOT_NEGOTIATED
  | GST_FLOW_ERROR
  | GST_FLOW_NOT_SUPPORTED
  deriving DecidableEq, Repr

/-- Which object a pointer handed to the `new-buffer` signal points to: the
buffer being rendered (`gst_buffer_ref(buffer)`) or a buffer newly made by
`gst_buffer_new_wrapped`. -/
inductive BufferOrigin where
  | input
  | wrapped
  deriving DecidableEq, Repr

/-- What the element does to its surroundings, in the order it does it:
`new_buffer` is `g_signal_emit(subsink, gst_sub_sink_signals[SIGNAL_NEW_BUFFER], 0, ...)`,
`parent_event` is `GST_BASE_SINK_CLASS(parent_class)->event(sink, event)`,
`event_unref` is `gst_event_unref(event)`. -/
inductive SinkEffect where
  | new_buffer (origin : BufferOrigin) (buffer : GstBuffer)
  | parent_event (event : GstEvent)
  | event_unref (event : GstEvent)
  deriving DecidableEq, Repr

/-- The struct `_GstSubSinkPrivate` (`user_data` and `notify`, which only
`gst_sub_sink_dispose` touches, are left out). -/
structure GstSubSinkPrivate where
  caps : Option GstCaps
  flushing : Bool
  deriving DecidableEq, Repr

/-- The base class and pad the element runs on, over a host state `H` of its
own: the parent class event handler `GST_BASE_SINK_CLASS(parent_class)->event`
with its return value, and `gst_pad_get_current_caps(GST_BASE_SINK_PAD(psink))`.
Neither can reach the private struct of the element. -/
structure GstBaseSinkHost (H : Type) where
  parent_event : H → GstEvent → H × Bool
  pad_get_current_caps : H → Option GstCaps

/-- A `GstSubSink` instance: the host part and the private struct. -/
structure GstSubSink (H : Type) where
  base : H
  priv : GstSubSinkPrivate

/-- The function `gst_sub_sink_init`: the private struct of a new instance is
the zero-filled block handed out by the object system. -/
def gst_sub_sink_init {H : Type} (base : H) : GstSubSink H :=
  ⟨base, ⟨none, false⟩⟩

/-! ## Lifecycle and dispatch (`gstsubsink.c` lines 266 to 391) -/

/-- The function `gst_sub_sink_start`. -/
def gst_sub_sink_start {H : Type} (psink : GstSubSink H) : GstSubSink H × Bool :=
  ({ psink with priv := { psink.priv with flushing := false } }, true)

/-- The function `gst_sub_sink_stop`. -/
def gst_sub_sink_stop {H : Type} (psink : GstSubSink H) : GstSubSink H × Bool :=
  ({ psink with priv := { psink.priv with flushing := true } }, true)

/-- The return value of a render call and the effects it had. -/
structure RenderResult where
  flow : GstFlowReturn
  effects : List SinkEffect
  deriving DecidableEq, Repr

/-- The text buffer built from a decoded string: wrapped copy, then the two
timestamp assignments. -/
def text_buffer (subtitle_text : List guint8) (buffer : GstBuffer) : GstBuffer :=
  let txtbuf := gst_buffer_new_wrapped (g_strdup subtitle_text) (strlen subtitle_text)
  let txtbuf := { txtbuf with pts := buffer.pts }
  let txtbuf := { txtbuf with dts := buffer.dts }
  txtbuf

/-- The function `gst_sub_sink_render_common`. -/
def gst_sub_sink_render_common {H : Type} (host : GstBaseSinkHost H) (psink : GstSubSink H)
    (buffer : GstBuffer) (_is_list : Bool) : Except Fault RenderResult :=
  if psink.priv.flushing then
    .ok ⟨.GST_FLOW_FLUSHING, []⟩
  else
    match host.pad_get_current_caps psink.base with
    | some caps =>
      let mime := gst_structure_get_name caps
      if  g_str_has_prefix mime "closedcaption/x-cea-608" then
        match gst_buffer_map buffer with
        | some map =>
          match decode_cea608_to_utf8 map.data map.size with
          | .error e => .error e
          | .ok (some subtitle_text) =>
            .ok ⟨.GST_FLOW_OK, [.new_buffer .wrapped (text_buffer subtitle_text buffer)]⟩
          | .ok none => .ok ⟨.GST_FLOW_OK, []⟩
        | none => .ok ⟨.GST_FLOW_OK, []⟩
      else if  g_str_has_prefix mime "closedcaption/x-cea-708" then
        match gst_buffer_map buffer with
        | some map =>
          match decode_cea708_to_utf8 map.data map.size with
          | .error e => .error e
          | .ok (some subtitle_text) =>
            .ok ⟨.GST_FLOW_OK, [.new_buffer .wrapped (text_buffer subtitle_text buffer)]⟩
          | .ok none => .ok ⟨.GST_FLOW_OK, []⟩
        | none => .ok ⟨.GST_FLOW_OK, []⟩
      else
        .ok ⟨.GST_FLOW_OK, [.new_buffer .input buffer]⟩
    | none =>
      .ok ⟨.GST_FLOW_OK, [.new_buffer .input buffer]⟩

/-- Effects of the closed-caption branches in terms of what the decoder
returned (auxiliary, used to state `render_common_cea608` and
`render_common_cea708`). -/
def closed_caption_effects (buffer : GstBuffer) (decoded : Option (List guint8)) :
    List SinkEffect :=
  if buffer.readable then
    match decoded with
    | some t => [.new_buffer .wrapped ⟨t, buffer.pts, buffer.dts, true⟩]
    | none => []
  else []

/-- The function `gst_sub_sink_render`. -/
def gst_sub_sink_render {H : Type} (host : GstBaseSinkHost H) (psink : GstSubSink H)
    (buffer : GstBuffer) : Except Fault RenderResult :=
  gst_sub_sink_render_common host psink buffer false

/-- The outcome of `gst_sub_sink_render_list`: the returned flow, the effects
in order, and the members handed to `gst_sub_sink_render`, in call order. -/
structure RenderListResult where
  flow : GstFlowReturn
  effects : List SinkEffect
  rendered : List GstBuffer
  deriving DecidableEq, Repr

/-- The `for (i = 0; i < len; i++)` loop of `gst_sub_sink_render_list` over a
per-member render function, entered with index `i`, the current `flow`, and
what happened so far. -/
def gst_sub_sink_render_list_loop (render : GstBuffer → Except Fault RenderResult)
    (list : List GstBuffer) (len : Nat) :
    Nat → Nat → GstFlowReturn → List SinkEffect → List GstBuffer →
      Except Fault RenderListResult
  | fuel, i, flow, effects, rendered =>
    if i < len then
      match fuel with
      | 0 => .error .out_of_fuel
      | fuel + 1 =>
        match list[i]? with
        | none => .error .out_of_bounds
        | some buffer =>
          match render buffer with
          | .error e => .error e
          | .ok r =>
            let flow := r.flow
            if flow ≠ .GST_FLOW_OK then
              .ok ⟨flow, effects ++ r.effects, rendered ++ [buffer]⟩
            else
              gst_sub_sink_render_list_loop render list len fuel ((i + 1) % guint_modulus)
                flow (effects ++ r.effects) (rendered ++ [buffer])
    else .ok ⟨flow, effects, rendered⟩

/-- The body of `gst_sub_sink_render_list` over a per-member render function. -/
def gst_sub_sink_render_list_with (render : GstBuffer → Except Fault RenderResult)
    (list : List GstBuffer) : Except Fault RenderListResult :=
  let len := list.length
  gst_sub_sink_render_list_loop render list len len 0 .GST_FLOW_OK [] []

/-- The function `gst_sub_sink_render_list`. -/
def gst_sub_sink_render_list {H : Type} (host : GstBaseSinkHost H) (sink : GstSubSink H)
    (list : List GstBuffer) : Except Fault RenderListResult :=
  gst_sub_sink_render_list_with (gst_sub_sink_render host sink) list

/-- Reference batch dispatch, following the specification: members are
dispatched in order, the first outcome that is not OK ends the batch and is
its outcome, and an exhausted batch is OK. -/
def render_list_reference (render : GstBuffer → Except Fault RenderResult) :
    List GstBuffer → Except Fault RenderListResult
  | [] => .ok ⟨.GST_FLOW_OK, [], []⟩
  | b :: rest =>
    match render b with
    | .error e => .error e
    | .ok r =>
      if r.flow ≠ .GST_FLOW_OK then .ok ⟨r.flow, r.effects, [b]⟩
      else
        match render_list_reference render rest with
        | .error e => .error e
        | .ok rr => .ok ⟨rr.flow, r.effects ++ rr.effects, b :: rr.rendered⟩

/-! ## Event observer (`gstsubsink.c` lines 494 to 581) -/

/-- The outcome of `gst_sub_sink_change_event`: the instance afterwards, the
returned `gboolean`, and the effects in order. -/
structure EventResult (H : Type) where
  sink : GstSubSink H
  ret : Bool
  effects : List SinkEffect

/-- The function `gst_sub_sink_change_event`. -/
def gst_sub_sink_change_event {H : Type} (host : GstBaseSinkHost H) (sink : GstSubSink H)
    (event : GstEvent) : EventResult H :=
  match event with
  | .GST_EVENT_FLUSH_START =>
    let (base, _) := host.parent_event sink.base event
    ⟨{ sink with base := base }, true, [.parent_event event]⟩
  | .GST_EVENT_FLUSH_STOP =>
    let (base, _) := host.parent_event sink.base event
    ⟨{ sink with base := base }, true, [.parent_event event]⟩
  | .GST_EVENT_CAPS _ =>
    let (base, ret) := host.parent_event sink.base event
    ⟨{ sink with base := base }, ret,
      if !ret then [.parent_event event, .event_unref event] else [.parent_event event]⟩
  | .GST_EVENT_SEGMENT _ =>
    let (base, ret) := host.parent_event sink.base event
    ⟨{ sink with base := base }, ret,
      if !ret then [.parent_event event, .event_unref event] else [.parent_event event]⟩
  | .GST_EVENT_TAG _ =>
    let (base, ret) := host.parent_event sink.base event
    ⟨{ sink with base := base }, ret,
      if !ret then [.parent_event event, .event_unref event] else [.parent_event event]⟩
  | .GST_EVENT_TOC _ _ =>
    ⟨sink, true, [.event_unref event]⟩
  | .GST_EVENT_OTHER _ =>
    let (base, ret) := host.parent_event sink.base event
    ⟨{ sink with base := base }, ret, [.parent_event event]⟩

/-- The events an effect list hands to the parent class handler, in order. -/
def forwarded_events (effects : List SinkEffect) : List GstEvent :=
  effects.filterMap (fun e =>
    match e with
    | .parent_event ev => some ev
    | _ => none)

/-! ## Sessions -/

/-- One call the host makes on the element. -/
inductive SessionCall where
  | start
  | stop
  | event (e : GstEvent)
  | render (buffer : GstBuffer)
  | render_list (list : List GstBuffer)
  deriving DecidableEq, Repr

/-- The instance after one call. The render calls write nothing to it. -/
def session_step {H : Type} (host : GstBaseSinkHost H) (sink : GstSubSink H) :
    SessionCall → GstSubSink H
  | .start => (gst_sub_sink_start sink).1
  | .stop => (gst_sub_sink_stop sink).1
  | .event e => (gst_sub_sink_change_event host sink e).sink
  | .render _ => sink
  | .render_list _ => sink

/-- The instance after a sequence of calls, oldest first. -/
def session_run {H : Type} (host : GstBaseSinkHost H) (sink : GstSubSink H)
    (calls : List SessionCall) : GstSubSink H :=
  calls.foldl (session_step host) sink

/-- Whether a flush-start event was handled with no flush-stop event after it. -/
def flush_start_pending (calls : List SessionCall) : Bool :=
  calls.foldl (fun pending c =>
    match c with
    | .event .GST_EVENT_FLUSH_START => true
    | .event .GST_EVENT_FLUSH_STOP => false
    | _ => pending) false

/-- The flag left by the `start()` and `stop()` calls of a sequence: `true`
when the last of them is `stop()`, `false` when it is `start()`, and the
initial value when the sequence has neither. -/
def lifecycle_flushing (initial : Bool) (calls : List SessionCall) : Bool :=
  calls.foldl (fun flag c =>
    match c with
    | .stop => true
    | .start => false
    | _ => flag) initial

/-- Whether no call of the sequence is `start()`. -/
def no_start (calls : List SessionCall) : Bool :=
  calls.all (fun c => decide (c ≠ .start))

/-- A host for evaluating the definitions on concrete inputs: its state is the
current caps of the pad, a caps event sets them, every event is accepted. -/
def caps_host : GstBaseSinkHost (Option GstCaps) where
  parent_event := fun h e =>
    match e with
    | .GST_EVENT_CAPS caps => (some caps, true)
    | _ => (h, true)
  pad_get_current_caps := fun h => h

/-! ## Decoder lemmas -/

theorem read_byte_of_lt (data : List guint8) (i : Nat) (h : i < data.length) :
    read_byte data i = .ok data[i] := by
  simp [read_byte, List.getElem?_eq_getElem h]

theorem drop_two_cells (data : List guint8) (i : Nat) (h : i + 1 < data.length) :
    data.drop i = data[i] :: data[i + 1] :: data.drop (i + 2) := by
  rw [List.drop_eq_getElem_cons (by omega : i < data.length),
    List.drop_eq_getElem_cons h]

theorem decode_cea608_loop_eq (data : List guint8) (hsize : data.length < gsize_modulus) :
    ∀ (fuel i : Nat) (out : List guint8), i % 2 = 0 → i ≤ data.length →
      data.length ≤ i + 2 * fuel →
      decode_cea608_loop data data.length fuel i out
        = .ok (out ++ cea608_kept (data.drop i)) := by
  intro fuel
  induction fuel with
  | zero =>
    intro i out _ hi hfuel
    have hlen : data.length = i := by omega
    unfold decode_cea608_loop
    have hmod : (i + 1) % gsize_modulus = i + 1 :=
      Nat.mod_eq_of_lt (by unfold gsize_modulus at *; omega)
    rw [hmod, if_neg (by omega)]
    simp [← hlen, cea608_kept]
  | succ fuel ih =>
    intro i out hpar hi hfuel
    have hmod : (i + 1) % gsize_modulus = i + 1 :=
      Nat.mod_eq_of_lt (by unfold gsize_modulus at *; omega)
    unfold decode_cea608_loop
    rw [hmod]
    by_cases hlt : i + 1 < data.length
    · have hmod2 : (i + 2) % gsize_modulus = i + 2 :=
        Nat.mod_eq_of_lt (by unfold gsize_modulus at *; omega)
      rw [if_pos hlt]
      simp only [read_byte_of_lt data i (by omega), read_byte_of_lt data (i + 1) hlt, hmod2]
      rw [ih (i + 2) _ (by omega) (by omega) (by omega), drop_two_cells data i hlt]
      simp only [cea608_kept, g_string_append_c]
      split_ifs <;> simp
    · rw [if_neg hlt]
      have hdrop : (data.drop i).length ≤ 1 := by simp; omega
      match hd : data.drop i, hdrop with
      | [], _ => simp [cea608_kept]
      | [_], _ => simp [cea608_kept]

theorem cea608_kept_eq_filter : ∀ l : List guint8,
    cea608_kept l = (cea608_cells l).filter (fun v => decide (0x20 ≤ v.val ∧ v.val ≤ 0x7F))
  | [] => by simp [cea608_kept, cea608_cells]
  | [_] => by simp [cea608_kept, cea608_cells]
  | cc1 :: cc2 :: rest => by
    have ih := cea608_kept_eq_filter rest
    have hlen : 2 * ((cc1 :: cc2 :: rest).length / 2) = 2 * (rest.length / 2) + 2 := by
      simp only [List.length_cons]; omega
    simp only [cea608_cells] at ih ⊢
    rw [hlen]
    simp only [cea608_kept, List.take_succ_cons, List.filter_cons, ← ih]
    by_cases h1 : 0x20 ≤ cc1.val ∧ cc1.val ≤ 0x7F <;>
      by_cases h2 : 0x20 ≤ cc2.val ∧ cc2.val ≤ 0x7F <;> simp [h1, h2]

theorem decode_cea708_loop_eq (data : List guint8) (hsize : data.length < gsize_modulus) :
    ∀ (fuel i : Nat) (out : List guint8), i ≤ data.length → data.length ≤ i + fuel →
      decode_cea708_loop data data.length fuel i out
        = .ok (out ++ (data.drop i).filter (fun v => decide (0x20 ≤ v.val ∧ v.val ≤ 0x7E))) := by
  intro fuel
  induction fuel with
  | zero =>
    intro i out hi hfuel
    have hlen : data.length = i := by omega
    unfold decode_cea708_loop
    rw [if_neg (by omega)]
    simp [← hlen]
  | succ fuel ih =>
    intro i out hi hfuel
    unfold decode_cea708_loop
    by_cases hlt : i < data.length
    · have hmod : (i + 1) % gsize_modulus = i + 1 :=
        Nat.mod_eq_of_lt (by unfold gsize_modulus at *; omega)
      rw [if_pos hlt]
      simp only [read_byte_of_lt data i hlt, hmod]
      rw [ih (i + 1) _ (by omega) (by omega), List.drop_eq_getElem_cons hlt]
      simp only [g_string_append_c, List.filter_cons]
      by_cases h1 : 0x20 ≤ (data[i]).val ∧ (data[i]).val ≤ 0x7E <;> simp [h1]
    · rw [if_neg hlt]
      have hlen : data.length = i := by omega
      simp [← hlen]

theorem decode_cea608_to_utf8_ok (b : List guint8) (hsize : b.length < gsize_modulus) :
    decode_cea608_to_utf8 b b.length = .ok (cea608_reference b) := by
  unfold decode_cea608_to_utf8
  rw [decode_cea608_loop_eq b hsize b.length 0 [] (by omega) (by omega) (by omega)]
  simp only [List.drop_zero, List.nil_append, cea608_kept_eq_filter, cea608_reference,
    List.length_eq_zero]
  split_ifs <;> rfl

theorem decode_cea708_to_utf8_ok (b : List guint8) (hsize : b.length < gsize_modulus) :
    decode_cea708_to_utf8 b b.length = .ok (cea708_reference b) := by
  unfold decode_cea708_to_utf8
  rw [decode_cea708_loop_eq b hsize b.length 0 [] (by omega) (by omega)]
  simp only [List.drop_zero, List.nil_append, cea708_reference, List.length_eq_zero]
  split_ifs <;> rfl

theorem cea608_reference_some (b t : List guint8) (h : cea608_reference b = some t) :
    t ≠ [] ∧ ∀ c ∈ t, 0x20 ≤ c.val ∧ c.val ≤ 0x7F := by
  unfold cea608_reference at h
  simp only at h
  split_ifs at h with hk
  cases h
  refine ⟨hk, ?_⟩
  intro c hc
  simpa using (List.mem_filter.mp hc).2

theorem cea708_reference_some (b t : List guint8) (h : cea708_reference b = some t) :
    t ≠ [] ∧ ∀ c ∈ t, 0x20 ≤ c.val ∧ c.val ≤ 0x7E := by
  unfold cea708_reference at h
  simp only at h
  split_ifs at h with hk
  cases h
  refine ⟨hk, ?_⟩
  intro c hc
  simpa using (List.mem_filter.mp hc).2

/-! ## Dispatch lemmas -/

theorem takeWhile_nonzero_of_range (t : List guint8) (h : ∀ c ∈ t, 0x20 ≤ c.val) :
    t.takeWhile (fun c => decide (c.val ≠ 0)) = t := by
  induction t with
  | nil => rfl
  | cons a rest ih =>
    have ha : 0x20 ≤ a.val := h a (List.mem_cons_self a rest)
    have hne : a.val ≠ 0 := by omega
    rw [List.takeWhile_cons_of_pos (by simpa using hne),
      ih (fun c hc => h c (List.mem_cons_of_mem a hc))]

theorem strlen_of_range (t : List guint8) (h : ∀ c ∈ t, 0x20 ≤ c.val) :
    strlen t = t.length := by
  unfold strlen
  rw [takeWhile_nonzero_of_range t h]

theorem text_buffer_of_range (t : List guint8) (buffer : GstBuffer)
    (h : ∀ c ∈ t, 0x20 ≤ c.val) :
    text_buffer t buffer = ⟨t, buffer.pts, buffer.dts, true⟩ := by
  simp only [text_buffer, gst_buffer_new_wrapped, g_strdup, strlen_of_range t h,
    takeWhile_nonzero_of_range t h, List.take_length]

theorem cea_prefixes_exclusive (mime : String)
    (h : g_str_has_prefix mime "closedcaption/x-cea-708" = true) :
    g_str_has_prefix mime "closedcaption/x-cea-608" = false := by
  unfold g_str_has_prefix at *
  rw [Bool.eq_false_iff]
  intro h6
  rw [ List.isPrefixOf_iff_prefix] at h h6
  obtain ⟨t7, h7⟩ := h
  obtain ⟨t6, h6⟩ := h6
  have heq := (List.append_inj (h7.trans h6.symm) (by decide)).1
  exact absurd heq (by decide)

theorem change_event_priv {H : Type} (host : GstBaseSinkHost H) (sink : GstSubSink H)
    (event : GstEvent) : (gst_sub_sink_change_event host sink event).sink.priv = sink.priv := by
  cases event <;> rfl

theorem session_step_flushing {H : Type} (host : GstBaseSinkHost H) (sink : GstSubSink H)
    (c : SessionCall) :
    (session_step host sink c).priv.flushing
      = lifecycle_flushing sink.priv.flushing [c] := by
  cases c with
  | event e => simp [session_step, lifecycle_flushing, change_event_priv]
  | _ => rfl

theorem session_run_flushing {H : Type} (host : GstBaseSinkHost H) (calls : List SessionCall) :
    ∀ sink : GstSubSink H,
      (session_run host sink calls).priv.flushing
        = lifecycle_flushing sink.priv.flushing calls := by
  induction calls with
  | nil => intro sink; rfl
  | cons c rest ih =>
    intro sink
    have hstep := session_step_flushing host sink c
    simp only [session_run, lifecycle_flushing, List.foldl_cons, List.foldl_nil] at ih hstep ⊢
    rw [ih (session_step host sink c), hstep]

theorem lifecycle_flushing_no_start (calls : List SessionCall) (h : no_start calls = true) :
    lifecycle_flushing true calls = true := by
  induction calls with
  | nil => rfl
  | cons c rest ih =>
    simp only [no_start, List.all_cons, Bool.and_eq_true, decide_eq_true_eq] at h ih
    cases c with
    | start => exact absurd rfl h.1
    | _ => exact ih h.2

theorem render_common_flushing {H : Type} (host : GstBaseSinkHost H) (psink : GstSubSink H)
    (buffer : GstBuffer) (is_list : Bool) (h : psink.priv.flushing = true) :
    gst_sub_sink_render_common host psink buffer is_list = .ok ⟨.GST_FLOW_FLUSHING, []⟩ := by
  unfold gst_sub_sink_render_common
  rw [if_pos h]

theorem render_common_not_flushing {H : Type} (host : GstBaseSinkHost H) (psink : GstSubSink H)
    (buffer : GstBuffer) (is_list : Bool) (h : psink.priv.flushing = false)
    (r : RenderResult) (hr : gst_sub_sink_render_common host psink buffer is_list = .ok r) :
    r.flow = .GST_FLOW_OK := by
  unfold gst_sub_sink_render_common at hr
  rw [if_neg (by simp [h])] at hr
  split at hr
  · simp only at hr
    split_ifs at hr
    all_goals first
      | (cases hr; rfl)
      | (split at hr <;> first | (cases hr; rfl) | (split at hr <;> first | (cases hr; rfl) | cases hr))
  · cases hr; rfl

theorem render_common_cea608 {H : Type} (host : GstBaseSinkHost H) (psink : GstSubSink H)
    (caps : GstCaps) (buffer : GstBuffer) (is_list : Bool)
    (hflush : psink.priv.flushing = false)
    (hcaps : host.pad_get_current_caps psink.base = some caps)
    (h6 : g_str_has_prefix (gst_structure_get_name caps) "closedcaption/x-cea-608" = true)
    (hsize : buffer.data.length < gsize_modulus) :
    gst_sub_sink_render_common host psink buffer is_list
      = .ok ⟨.GST_FLOW_OK, closed_caption_effects buffer (cea608_reference buffer.data)⟩ := by
  unfold gst_sub_sink_render_common closed_caption_effects gst_buffer_map
  rw [if_neg (by simp [hflush]), hcaps]
  simp only [h6, if_true]
  cases hread : buffer.readable with
  | false => simp
  | true =>
    simp only [if_true, decode_cea608_to_utf8_ok buffer.data hsize]
    cases href : cea608_reference buffer.data with
    | none => rfl
    | some t =>
      have hrange := (cea608_reference_some buffer.data t href).2
      simp only [text_buffer_of_range t buffer (fun c hc => (hrange c hc).1)]

theorem render_common_cea708 {H : Type} (host : GstBaseSinkHost H) (psink : GstSubSink H)
    (caps : GstCaps) (buffer : GstBuffer) (is_list : Bool)
    (hflush : psink.priv.flushing = false)
    (hcaps : host.pad_get_current_caps psink.base = some caps)
    (h7 : g_str_has_prefix (gst_structure_get_name caps) "closedcaption/x-cea-708" = true)
    (hsize : buffer.data.length < gsize_modulus) :
    gst_sub_sink_render_common host psink buffer is_list
      = .ok ⟨.GST_FLOW_OK, closed_caption_effects buffer (cea708_reference buffer.data)⟩ := by
  have h6 := cea_prefixes_exclusive _ h7
  unfold gst_sub_sink_render_common closed_caption_effects gst_buffer_map
  rw [if_neg (by simp [hflush]), hcaps]
  simp only [h6, h7, if_true]
  cases hread : buffer.readable with
  | false => simp
  | true =>
    simp only [if_true, decode_cea708_to_utf8_ok buffer.data hsize]
    cases href : cea708_reference buffer.data with
    | none => simp
    | some t =>
      have hrange := (cea708_reference_some buffer.data t href).2
      simp [text_buffer_of_range t buffer (fun c hc => (hrange c hc).1)]

theorem gst_buffer_map_some (buffer : GstBuffer) (map : GstMapInfo)
    (h : gst_buffer_map buffer = some map) :
    buffer.readable = true ∧ map = ⟨buffer.data, buffer.data.length⟩ := by
  unfold gst_buffer_map at h
  split_ifs at h with hread
  injection h with h
  exact ⟨hread, h.symm⟩

theorem gst_buffer_map_none (buffer : GstBuffer) (h : gst_buffer_map buffer = none) :
    buffer.readable = false := by
  unfold gst_buffer_map at h
  split_ifs at h with hread
  simpa using hread

theorem closed_caption_effects_no_input (buffer : GstBuffer) (decoded : Option (List guint8))
    (b : GstBuffer) : SinkEffect.new_buffer .input b ∉ closed_caption_effects buffer decoded := by
  unfold closed_caption_effects
  cases buffer.readable <;> cases decoded <;> simp

theorem render_list_loop_eq (render : GstBuffer → Except Fault RenderResult)
    (list : List GstBuffer) (hlen : list.length < guint_modulus) :
    ∀ (fuel i : Nat) (flow : GstFlowReturn) (effects : List SinkEffect)
      (rendered : List GstBuffer), flow = .GST_FLOW_OK → i ≤ list.length →
      list.length ≤ i + fuel →
      gst_sub_sink_render_list_loop render list list.length fuel i flow effects rendered
        = match render_list_reference render (list.drop i) with
          | .error e => .error e
          | .ok rr => .ok ⟨rr.flow, effects ++ rr.effects, rendered ++ rr.rendered⟩ := by
  intro fuel
  induction fuel with
  | zero =>
    intro i flow effects rendered hflow hi hfuel
    have hlen' : list.length = i := by omega
    unfold gst_sub_sink_render_list_loop
    rw [if_neg (by omega)]
    simp [← hlen', render_list_reference, hflow]
  | succ fuel ih =>
    intro i flow effects rendered hflow hi hfuel
    unfold gst_sub_sink_render_list_loop
    by_cases hlt : i < list.length
    · have hmod : (i + 1) % guint_modulus = i + 1 :=
        Nat.mod_eq_of_lt (by unfold guint_modulus at *; omega)
      rw [if_pos hlt, List.drop_eq_getElem_cons hlt]
      simp only [List.getElem?_eq_getElem hlt, hmod, render_list_reference]
      cases hr : render list[i] with
      | error e => rfl
      | ok r =>
        simp only
        by_cases hflow' : r.flow = .GST_FLOW_OK
        · rw [if_neg (by simp [hflow']), if_neg (by simp [hflow'])]
          rw [ih (i + 1) r.flow _ _ hflow' (by omega) (by omega)]
          cases render_list_reference render (List.drop (i + 1) list) with
          | error e => rfl
          | ok rr => simp
        · rw [if_pos hflow', if_pos hflow']
    · have hlen' : list.length = i := by omega
      rw [if_neg hlt]
      simp [← hlen', render_list_reference, hflow]

theorem render_list_with_eq_reference (render : GstBuffer → Except Fault RenderResult)
    (list : List GstBuffer) (hlen : list.length < guint_modulus) :
    gst_sub_sink_render_list_with render list = render_list_reference render list := by
  unfold gst_sub_sink_render_list_with
  simp only
  rw [render_list_loop_eq render list hlen list.length 0 .GST_FLOW_OK [] [] rfl (by omega)
    (by omega)]
  simp only [List.drop_zero, List.nil_append]
  cases render_list_reference render list <;> rfl

/-! ## Decoder claims -/

/-- C1: on every byte sequence whose length fits a `gsize`,
`decode_cea608_to_utf8` returns what the reference definition gives (complete
2-byte cells, bytes in `[0x20, 0x7F]` kept in order, `NULL` when none is
kept); the payload `41 42 00 43` decodes to the text ABC. -/
theorem decode_cea608_to_utf8_eq_reference (b : List guint8)
    (hsize : b.length < gsize_modulus) :
    decode_cea608_to_utf8 b b.length = .ok (cea608_reference b) ∧
      (decode_cea608_to_utf8 [0x41, 0x42, 0x00, 0x43] 4).map (Option.map text_of_bytes)
        = .ok (some "ABC") :=
  ⟨decode_cea608_to_utf8_ok b hsize, by decide⟩

/-- Witness of C1 on the three-byte payload `41 42 00`, whose last byte is
unpaired. -/
theorem decode_cea608_to_utf8_eq_reference_witness :
    ([0x41, 0x42, 0x00] : List guint8).length < gsize_modulus ∧
      (decode_cea608_to_utf8 [0x41, 0x42, 0x00] ([0x41, 0x42, 0x00] : List guint8).length
          = .ok (cea608_reference [0x41, 0x42, 0x00]) ∧
        (decode_cea608_to_utf8 [0x41, 0x42, 0x00, 0x43] 4).map (Option.map text_of_bytes)
          = .ok (some "ABC")) :=
  ⟨by decide, decode_cea608_to_utf8_eq_reference [0x41, 0x42, 0x00] (by decide)⟩

/-- C2: on every byte sequence whose length fits a `gsize`,
`decode_cea708_to_utf8` returns what the reference definition gives (every
byte examined, bytes in `[0x20, 0x7E]` kept in order, `NULL` when none is
kept); the payload `01 48 49` decodes to the text HI. -/
theorem decode_cea708_to_utf8_eq_reference (b : List guint8)
    (hsize : b.length < gsize_modulus) :
    decode_cea708_to_utf8 b b.length = .ok (cea708_reference b) ∧
      (decode_cea708_to_utf8 [0x01, 0x48, 0x49] 3).map (Option.map text_of_bytes)
        = .ok (some "HI") :=
  ⟨decode_cea708_to_utf8_ok b hsize, by decide⟩

/-- Witness of C2 on the payload `7F 41 7E`: the odd trailing byte is kept and
`7F` is dropped. -/
theorem decode_cea708_to_utf8_eq_reference_witness :
    ([0x7F, 0x41, 0x7E] : List guint8).length < gsize_modulus ∧
      (decode_cea708_to_utf8 [0x7F, 0x41, 0x7E] ([0x7F, 0x41, 0x7E] : List guint8).length
          = .ok (cea708_reference [0x7F, 0x41, 0x7E]) ∧
        (decode_cea708_to_utf8 [0x01, 0x48, 0x49] 3).map (Option.map text_of_bytes)
          = .ok (some "HI")) :=
  ⟨by decide, decode_cea708_to_utf8_eq_reference [0x7F, 0x41, 0x7E] (by decide)⟩

/-- C3 as stated fails on the empty payload: it has even length and no byte
outside `[0x20, 0x7F]`, and `decode_cea608_to_utf8` returns `NULL` for it, not
a text with the bytes of the payload. -/
theorem decode_cea608_to_utf8_empty_not_identity :
    ([] : List guint8).length < gsize_modulus ∧ ([] : List guint8).length % 2 = 0 ∧
      (∀ v ∈ ([] : List guint8), 0x20 ≤ v.val ∧ v.val ≤ 0x7F) ∧
      decode_cea608_to_utf8 [] ([] : List guint8).length = .ok none ∧
      decode_cea608_to_utf8 [] ([] : List guint8).length ≠ .ok (some []) :=
  ⟨by decide, by decide, by simp, by decide, by decide⟩

/-- C3, amended: on every non-empty even-length byte sequence whose bytes all
lie in `[0x20, 0x7F]`, `decode_cea608_to_utf8` returns a text whose bytes are
exactly the input. -/
theorem decode_cea608_to_utf8_identity (b : List guint8) (hsize : b.length < gsize_modulus)
    (hne : b ≠ []) (heven : b.length % 2 = 0)
    (hrange : ∀ v ∈ b, 0x20 ≤ v.val ∧ v.val ≤ 0x7F) :
    decode_cea608_to_utf8 b b.length = .ok (some b) := by
  rw [decode_cea608_to_utf8_ok b hsize]
  have hcells : cea608_cells b = b := by
    unfold cea608_cells
    exact List.take_of_length_le (by omega)
  have hfilter : b.filter (fun v => decide (0x20 ≤ v.val ∧ v.val ≤ 0x7F)) = b :=
    List.filter_eq_self.mpr (fun v hv => by simpa using hrange v hv)
  unfold cea608_reference
  simp only [hcells, hfilter]
  rw [if_neg hne]

/-- Witness of the amended C3 on the payload `41 7F 20 42`. -/
theorem decode_cea608_to_utf8_identity_witness :
    decode_cea608_to_utf8 [0x41, 0x7F, 0x20, 0x42] ([0x41, 0x7F, 0x20, 0x42] : List guint8).length
      = .ok (some [0x41, 0x7F, 0x20, 0x42]) :=
  decode_cea608_to_utf8_identity [0x41, 0x7F, 0x20, 0x42] (by decide) (by decide) (by decide)
    (by simp; decide)

/-- C10: on every byte sequence whose length fits a `gsize`, both decoders
return a result (no read outside the array, no exhausted fuel); a returned
text is non-empty and all its characters lie in the range of the decoder
(`[0x20, 0x7F]` for CEA-608, `[0x20, 0x7E]` for CEA-708); on a sequence of
length 0 both return `NULL`. -/
theorem decoders_total_and_in_range (b : List guint8) (hsize : b.length < gsize_modulus) :
    ∃ r608 r708 : Option (List guint8),
      decode_cea608_to_utf8 b b.length = .ok r608 ∧
      decode_cea708_to_utf8 b b.length = .ok r708 ∧
      (∀ t, r608 = some t → t ≠ [] ∧ ∀ c ∈ t, 0x20 ≤ c.val ∧ c.val ≤ 0x7F) ∧
      (∀ t, r708 = some t → t ≠ [] ∧ ∀ c ∈ t, 0x20 ≤ c.val ∧ c.val ≤ 0x7E) ∧
      (b.length = 0 → r608 = none ∧ r708 = none) := by
  refine ⟨cea608_reference b, cea708_reference b, decode_cea608_to_utf8_ok b hsize,
    decode_cea708_to_utf8_ok b hsize, cea608_reference_some b, cea708_reference_some b, ?_⟩
  intro hlen
  have hb : b = [] := List.length_eq_zero.mp hlen
  subst hb
  exact ⟨rfl, rfl⟩

/-- Witness of C10 on the payload `41 00 7F`. -/
theorem decoders_total_and_in_range_witness :
    ([0x41, 0x00, 0x7F] : List guint8).length < gsize_modulus ∧
    ∃ r608 r708 : Option (List guint8),
      decode_cea608_to_utf8 [0x41, 0x00, 0x7F] ([0x41, 0x00, 0x7F] : List guint8).length
        = .ok r608 ∧
      decode_cea708_to_utf8 [0x41, 0x00, 0x7F] ([0x41, 0x00, 0x7F] : List guint8).length
        = .ok r708 ∧
      (∀ t, r608 = some t → t ≠ [] ∧ ∀ c ∈ t, 0x20 ≤ c.val ∧ c.val ≤ 0x7F) ∧
      (∀ t, r708 = some t → t ≠ [] ∧ ∀ c ∈ t, 0x20 ≤ c.val ∧ c.val ≤ 0x7E) ∧
      (([0x41, 0x00, 0x7F] : List guint8).length = 0 → r608 = none ∧ r708 = none) :=
  ⟨by decide, decoders_total_and_in_range [0x41, 0x00, 0x7F] (by decide)⟩

/-! ## Dispatch claims -/

/-- C4: whenever the flushing flag is set, `gst_sub_sink_render_common` returns
`GST_FLOW_FLUSHING` and emits nothing, whatever the current caps; and after
`gst_sub_sink_stop`, through any later calls none of which is `start()`,
every dispatch is still rejected that way. -/
theorem render_common_rejected_while_flushing {H : Type} (host : GstBaseSinkHost H)
    (psink sink0 : GstSubSink H) (calls : List SessionCall) (buffer : GstBuffer)
    (is_list : Bool) (hflush : psink.priv.flushing = true) (hcalls : no_start calls = true) :
    gst_sub_sink_render_common host psink buffer is_list = .ok ⟨.GST_FLOW_FLUSHING, []⟩ ∧
      (gst_sub_sink_stop sink0).1.priv.flushing = true ∧
      gst_sub_sink_render_common host (session_run host (gst_sub_sink_stop sink0).1 calls)
        buffer is_list = .ok ⟨.GST_FLOW_FLUSHING, []⟩ := by
  refine ⟨render_common_flushing host psink buffer is_list hflush, rfl, ?_⟩
  apply render_common_flushing
  rw [session_run_flushing]
  exact lifecycle_flushing_no_start calls hcalls

/-- Witness of C4: a stopped sink with CEA-608 caps, then a flush-stop event
and a caps event, then a printable buffer. -/
theorem render_common_rejected_while_flushing_witness :
    (gst_sub_sink_stop (gst_sub_sink_init (some (⟨"closedcaption/x-cea-608", []⟩ : GstCaps)))).1.priv.flushing
        = true ∧
      no_start [.event .GST_EVENT_FLUSH_STOP, .event (.GST_EVENT_CAPS ⟨"text/x-raw", []⟩),
        .render ⟨[0x41, 0x42], 0, 0, true⟩] = true ∧
      (gst_sub_sink_render_common caps_host
          (gst_sub_sink_stop (gst_sub_sink_init (some (⟨"closedcaption/x-cea-608", []⟩ : GstCaps)))).1
          ⟨[0x41, 0x42], 7, 7, true⟩ false = .ok ⟨.GST_FLOW_FLUSHING, []⟩ ∧
        (gst_sub_sink_stop (gst_sub_sink_init (none : Option GstCaps))).1.priv.flushing = true ∧
        gst_sub_sink_render_common caps_host
          (session_run caps_host (gst_sub_sink_stop (gst_sub_sink_init (none : Option GstCaps))).1
            [.event .GST_EVENT_FLUSH_STOP, .event (.GST_EVENT_CAPS ⟨"text/x-raw", []⟩),
              .render ⟨[0x41, 0x42], 0, 0, true⟩])
          ⟨[0x41, 0x42], 7, 7, true⟩ false = .ok ⟨.GST_FLOW_FLUSHING, []⟩) :=
  ⟨by decide, by decide,
    render_common_rejected_while_flushing caps_host _ _ _ _ _ (by decide) (by decide)⟩

/-- C5 as stated fails: from a new instance, after `start()` and a flush-start
event (no flush-stop event since), the flushing flag is clear and a dispatch
returns `GST_FLOW_OK` and emits the buffer. -/
theorem flush_start_leaves_dispatch_open :
    flush_start_pending [.start, .event .GST_EVENT_FLUSH_START] = true ∧
      (session_run caps_host (gst_sub_sink_init (none : Option GstCaps))
          [.start, .event .GST_EVENT_FLUSH_START]).priv.flushing = false ∧
      gst_sub_sink_render_common caps_host
          (session_run caps_host (gst_sub_sink_init (none : Option GstCaps))
            [.start, .event .GST_EVENT_FLUSH_START])
          ⟨[0x41, 0x42], 7, 7, true⟩ false
        = .ok ⟨.GST_FLOW_OK, [.new_buffer .input ⟨[0x41, 0x42], 7, 7, true⟩]⟩ := by
  decide

/-- C5, amended: from any instance and through any calls (start, stop, events
of every kind, dispatches), handling a flush-start or a flush-stop event leaves
the flushing flag as it was; the flag is the one left by the `start()` and
`stop()` calls alone; when it is set every dispatch returns
`GST_FLOW_FLUSHING` and emits nothing, and when it is clear no dispatch
does. -/
theorem flushing_follows_start_and_stop {H : Type} (host : GstBaseSinkHost H)
    (sink0 : GstSubSink H) (calls : List SessionCall) (buffer : GstBuffer) (is_list : Bool) :
    (session_run host sink0 calls).priv.flushing
        = lifecycle_flushing sink0.priv.flushing calls ∧
      (gst_sub_sink_change_event host (session_run host sink0 calls)
          .GST_EVENT_FLUSH_START).sink.priv.flushing
        = (session_run host sink0 calls).priv.flushing ∧
      (gst_sub_sink_change_event host (session_run host sink0 calls)
          .GST_EVENT_FLUSH_STOP).sink.priv.flushing
        = (session_run host sink0 calls).priv.flushing ∧
      (lifecycle_flushing sink0.priv.flushing calls = true →
        gst_sub_sink_render_common host (session_run host sink0 calls) buffer is_list
          = .ok ⟨.GST_FLOW_FLUSHING, []⟩) ∧
      (lifecycle_flushing sink0.priv.flushing calls = false →
        ∀ r, gst_sub_sink_render_common host (session_run host sink0 calls) buffer is_list
          = .ok r → r.flow = .GST_FLOW_OK) := by
  refine ⟨session_run_flushing host calls sink0, ?_, ?_, ?_, ?_⟩
  · rw [change_event_priv]
  · rw [change_event_priv]
  · intro h
    exact render_common_flushing host _ buffer is_list
      ((session_run_flushing host calls sink0).trans h)
  · intro h r hr
    exact render_common_not_flushing host _ buffer is_list
      ((session_run_flushing host calls sink0).trans h) r hr

/-- C6: when the flushing flag is clear and the pad has no current caps, or
caps whose name starts with neither closed-caption name,
`gst_sub_sink_render_common` returns `GST_FLOW_OK` and emits exactly one
`new-buffer` signal, carrying the input buffer itself: same payload, same
presentation timestamp, same decoding timestamp. -/
theorem render_common_passthrough {H : Type} (host : GstBaseSinkHost H) (psink : GstSubSink H)
    (buffer : GstBuffer) (is_list : Bool) (hflush : psink.priv.flushing = false)
    (hcaps : host.pad_get_current_caps psink.base = none ∨
      ∃ caps, host.pad_get_current_caps psink.base = some caps ∧
         g_str_has_prefix (gst_structure_get_name caps) "closedcaption/x-cea-608" = false ∧
         g_str_has_prefix (gst_structure_get_name caps) "closedcaption/x-cea-708" = false) :
    ∃ out, gst_sub_sink_render_common host psink buffer is_list
        = .ok ⟨.GST_FLOW_OK, [.new_buffer .input out]⟩ ∧
      out = buffer ∧ out.data = buffer.data ∧ out.pts = buffer.pts ∧ out.dts = buffer.dts := by
  refine ⟨buffer, ?_, rfl, rfl, rfl, rfl⟩
  unfold gst_sub_sink_render_common
  rw [if_neg (by simp [hflush])]
  rcases hcaps with hnone | ⟨caps, hsome, h6, h7⟩
  · rw [hnone]
  · rw [hsome]
    simp only [h6, h7]
    rfl

/-- Witness of C6: a started sink whose pad carries `text/x-raw` caps passes
an arbitrary five-byte buffer through. -/
theorem render_common_passthrough_witness :
    ∃ out, gst_sub_sink_render_common caps_host
        (gst_sub_sink_start (gst_sub_sink_init (some (⟨"text/x-raw", []⟩ : GstCaps)))).1
        ⟨[0x00, 0x41, 0xFF, 0x7F, 0x0A], 5, 3, true⟩ true
        = .ok ⟨.GST_FLOW_OK, [.new_buffer .input out]⟩ ∧
      out = ⟨[0x00, 0x41, 0xFF, 0x7F, 0x0A], 5, 3, true⟩ ∧
      out.data = (⟨[0x00, 0x41, 0xFF, 0x7F, 0x0A], 5, 3, true⟩ : GstBuffer).data ∧
      out.pts = (⟨[0x00, 0x41, 0xFF, 0x7F, 0x0A], 5, 3, true⟩ : GstBuffer).pts ∧
      out.dts = (⟨[0x00, 0x41, 0xFF, 0x7F, 0x0A], 5, 3, true⟩ : GstBuffer).dts :=
  render_common_passthrough caps_host _ _ _ (by decide)
    (Or.inr ⟨⟨"text/x-raw", []⟩, by decide, by decide, by decide⟩)

/-- C7: when the flushing flag is clear and the name of the current caps starts
with the CEA-608 name (resp. the CEA-708 name), `gst_sub_sink_render_common`
returns `GST_FLOW_OK` and never emits the input buffer; if the decoder, run on
the mapped payload, returns a text, `strlen` of it is its full length and
exactly one new buffer is emitted, whose payload is the whole text and whose
timestamps are those of the input buffer; if it returns `NULL`, or the buffer
does not map, nothing is emitted. -/
theorem render_common_closed_caption {H : Type} (host : GstBaseSinkHost H)
    (psink : GstSubSink H) (caps : GstCaps) (buffer : GstBuffer) (is_list : Bool)
    (hflush : psink.priv.flushing = false)
    (hcaps : host.pad_get_current_caps psink.base = some caps)
    (hsize : buffer.data.length < gsize_modulus) :
    ( g_str_has_prefix (gst_structure_get_name caps) "closedcaption/x-cea-608" = true →
      (∃ r, gst_sub_sink_render_common host psink buffer is_list = .ok r ∧
        r.flow = .GST_FLOW_OK ∧ ∀ b, SinkEffect.new_buffer .input b ∉ r.effects) ∧
      (∀ map t, gst_buffer_map buffer = some map →
        decode_cea608_to_utf8 map.data map.size = .ok (some t) →
        strlen t = t.length ∧
        gst_sub_sink_render_common host psink buffer is_list
          = .ok ⟨.GST_FLOW_OK, [.new_buffer .wrapped ⟨t, buffer.pts, buffer.dts, true⟩]⟩) ∧
      (∀ map, gst_buffer_map buffer = some map →
        decode_cea608_to_utf8 map.data map.size = .ok none →
        gst_sub_sink_render_common host psink buffer is_list = .ok ⟨.GST_FLOW_OK, []⟩) ∧
      (gst_buffer_map buffer = none →
        gst_sub_sink_render_common host psink buffer is_list = .ok ⟨.GST_FLOW_OK, []⟩)) ∧
    ( g_str_has_prefix (gst_structure_get_name caps) "closedcaption/x-cea-708" = true →
      (∃ r, gst_sub_sink_render_common host psink buffer is_list = .ok r ∧
        r.flow = .GST_FLOW_OK ∧ ∀ b, SinkEffect.new_buffer .input b ∉ r.effects) ∧
      (∀ map t, gst_buffer_map buffer = some map →
        decode_cea708_to_utf8 map.data map.size = .ok (some t) →
        strlen t = t.length ∧
        gst_sub_sink_render_common host psink buffer is_list
          = .ok ⟨.GST_FLOW_OK, [.new_buffer .wrapped ⟨t, buffer.pts, buffer.dts, true⟩]⟩) ∧
      (∀ map, gst_buffer_map buffer = some map →
        decode_cea708_to_utf8 map.data map.size = .ok none →
        gst_sub_sink_render_common host psink buffer is_list = .ok ⟨.GST_FLOW_OK, []⟩) ∧
      (gst_buffer_map buffer = none →
        gst_sub_sink_render_common host psink buffer is_list = .ok ⟨.GST_FLOW_OK, []⟩)) := by
  constructor
  · intro h6
    rw [render_common_cea608 host psink caps buffer is_list hflush hcaps h6 hsize]
    refine ⟨⟨_, rfl, rfl, closed_caption_effects_no_input buffer _⟩, ?_, ?_, ?_⟩
    · intro map t hmap ht
      obtain ⟨hread, hm⟩ := gst_buffer_map_some buffer map hmap
      subst hm
      rw [decode_cea608_to_utf8_ok buffer.data hsize] at ht
      have href : cea608_reference buffer.data = some t := by
        injection ht
      refine ⟨strlen_of_range t
        (fun c hc => ((cea608_reference_some buffer.data t href).2 c hc).1), ?_⟩
      simp [closed_caption_effects, hread, href]
    · intro map hmap hnone
      obtain ⟨hread, hm⟩ := gst_buffer_map_some buffer map hmap
      subst hm
      rw [decode_cea608_to_utf8_ok buffer.data hsize] at hnone
      have href : cea608_reference buffer.data = none := by
        injection hnone
      simp [closed_caption_effects, hread, href]
    · intro hmap
      simp [closed_caption_effects, gst_buffer_map_none buffer hmap]
  · intro h7
    rw [render_common_cea708 host psink caps buffer is_list hflush hcaps h7 hsize]
    refine ⟨⟨_, rfl, rfl, closed_caption_effects_no_input buffer _⟩, ?_, ?_, ?_⟩
    · intro map t hmap ht
      obtain ⟨hread, hm⟩ := gst_buffer_map_some buffer map hmap
      subst hm
      rw [decode_cea708_to_utf8_ok buffer.data hsize] at ht
      have href : cea708_reference buffer.data = some t := by
        injection ht
      refine ⟨strlen_of_range t
        (fun c hc => ((cea708_reference_some buffer.data t href).2 c hc).1), ?_⟩
      simp [closed_caption_effects, hread, href]
    · intro map hmap hnone
      obtain ⟨hread, hm⟩ := gst_buffer_map_some buffer map hmap
      subst hm
      rw [decode_cea708_to_utf8_ok buffer.data hsize] at hnone
      have href : cea708_reference buffer.data = none := by
        injection hnone
      simp [closed_caption_effects, hread, href]
    · intro hmap
      simp [closed_caption_effects, gst_buffer_map_none buffer hmap]

/-- Witness of C7: under CEA-608 caps the payload `41 42 00 43` with timestamps
10 and 9 is answered by one new buffer holding the three bytes `41 42 43` with
the same timestamps. -/
theorem render_common_closed_caption_witness :
    (gst_sub_sink_start (gst_sub_sink_init (some (⟨"closedcaption/x-cea-608", []⟩ : GstCaps)))).1.priv.flushing
        = false ∧
      (⟨[0x41, 0x42, 0x00, 0x43], 10, 9, true⟩ : GstBuffer).data.length < gsize_modulus ∧
      gst_sub_sink_render_common caps_host
          (gst_sub_sink_start (gst_sub_sink_init (some (⟨"closedcaption/x-cea-608", []⟩ : GstCaps)))).1
          ⟨[0x41, 0x42, 0x00, 0x43], 10, 9, true⟩ false
        = .ok ⟨.GST_FLOW_OK, [.new_buffer .wrapped ⟨[0x41, 0x42, 0x43], 10, 9, true⟩]⟩ :=
  ⟨by decide, by decide,
    (((render_common_closed_caption caps_host
      (gst_sub_sink_start (gst_sub_sink_init (some (⟨"closedcaption/x-cea-608", []⟩ : GstCaps)))).1
      ⟨"closedcaption/x-cea-608", []⟩ ⟨[0x41, 0x42, 0x00, 0x43], 10, 9, true⟩ false
      (by decide) (by decide) (by decide)).1 (by decide)).2.1
        ⟨[0x41, 0x42, 0x00, 0x43], 4⟩ [0x41, 0x42, 0x43] (by decide) (by decide)).2⟩

/-- C8: on every list whose length fits a `guint`, `gst_sub_sink_render_list`
does what the reference batch dispatch does with `gst_sub_sink_render`:
members are rendered one by one in list order, the first outcome that is not
OK ends the loop and is returned, nothing after it is rendered, an exhausted
(or empty) list returns OK, and the effects are those of the rendered
members in order. For a three-member list whose second member is rejected the
loop returns that rejection, with the effects of the first member and the
first two members rendered. -/
theorem gst_sub_sink_render_list_eq_reference {H : Type} (host : GstBaseSinkHost H)
    (sink : GstSubSink H) (list : List GstBuffer) (hlen : list.length < guint_modulus) :
    gst_sub_sink_render_list host sink list
        = render_list_reference (gst_sub_sink_render host sink) list ∧
      gst_sub_sink_render_list host sink [] = .ok ⟨.GST_FLOW_OK, [], []⟩ ∧
      (∀ b rest, sink.priv.flushing = true →
        gst_sub_sink_render_list host sink (b :: rest) = .ok ⟨.GST_FLOW_FLUSHING, [], [b]⟩) ∧
      (∀ (render : GstBuffer → Except Fault RenderResult) (b1 b2 b3 : GstBuffer)
        (r1 : RenderResult) (e2 : List SinkEffect) (flow2 : GstFlowReturn),
        render b1 = .ok r1 → r1.flow = .GST_FLOW_OK → render b2 = .ok ⟨flow2, e2⟩ →
        flow2 ≠ .GST_FLOW_OK →
        gst_sub_sink_render_list_with render [b1, b2, b3]
          = .ok ⟨flow2, r1.effects ++ e2, [b1, b2]⟩) := by
  refine ⟨render_list_with_eq_reference _ list hlen, rfl, ?_, ?_⟩
  · intro b rest hflush
    unfold gst_sub_sink_render_list gst_sub_sink_render_list_with
    simp only [List.length_cons]
    unfold gst_sub_sink_render_list_loop
    simp [gst_sub_sink_render, render_common_flushing host sink b false hflush]
  · intro render b1 b2 b3 r1 e2 flow2 h1 hok h2 hrej
    rw [render_list_with_eq_reference render _ (by simp [guint_modulus])]
    simp [render_list_reference, h1, hok, h2, hrej]

/-- Witness of C8: a started sink with `text/x-raw` caps renders a list of three
buffers in order and returns OK; and over a per-member function that rejects
the buffer with timestamp 2, the loop on the same list stops there, having
rendered two members and kept the effects of the first. -/
theorem gst_sub_sink_render_list_eq_reference_witness :
    ([⟨[0x41], 1, 1, true⟩, ⟨[0x42], 2, 2, true⟩, ⟨[0x43], 3, 3, true⟩] : List GstBuffer).length
        < guint_modulus ∧
      gst_sub_sink_render_list caps_host
          (gst_sub_sink_start (gst_sub_sink_init (some (⟨"text/x-raw", []⟩ : GstCaps)))).1
          [⟨[0x41], 1, 1, true⟩, ⟨[0x42], 2, 2, true⟩, ⟨[0x43], 3, 3, true⟩]
        = .ok ⟨.GST_FLOW_OK,
            [.new_buffer .input ⟨[0x41], 1, 1, true⟩, .new_buffer .input ⟨[0x42], 2, 2, true⟩,
              .new_buffer .input ⟨[0x43], 3, 3, true⟩],
            [⟨[0x41], 1, 1, true⟩, ⟨[0x42], 2, 2, true⟩, ⟨[0x43], 3, 3, true⟩]⟩ ∧
      gst_sub_sink_render_list_with
          (fun b => if b.pts = 2 then .ok ⟨.GST_FLOW_FLUSHING, []⟩
            else .ok ⟨.GST_FLOW_OK, [.new_buffer .input b]⟩)
          [⟨[0x41], 1, 1, true⟩, ⟨[0x42], 2, 2, true⟩, ⟨[0x43], 3, 3, true⟩]
        = .ok ⟨.GST_FLOW_FLUSHING, [.new_buffer .input ⟨[0x41], 1, 1, true⟩],
            [⟨[0x41], 1, 1, true⟩, ⟨[0x42], 2, 2, true⟩]⟩ :=
  ⟨by decide,
    (gst_sub_sink_render_list_eq_reference caps_host
      (gst_sub_sink_start (gst_sub_sink_init (some (⟨"text/x-raw", []⟩ : GstCaps)))).1
      [⟨[0x41], 1, 1, true⟩, ⟨[0x42], 2, 2, true⟩, ⟨[0x43], 3, 3, true⟩] (by decide)).1.trans
      (by decide),
    (gst_sub_sink_render_list_eq_reference caps_host
      (gst_sub_sink_init (none : Option GstCaps)) [] (by decide)).2.2.2
      (fun b => if b.pts = 2 then .ok ⟨.GST_FLOW_FLUSHING, []⟩
        else .ok ⟨.GST_FLOW_OK, [.new_buffer .input b]⟩)
      ⟨[0x41], 1, 1, true⟩ ⟨[0x42], 2, 2, true⟩ ⟨[0x43], 3, 3, true⟩
      ⟨.GST_FLOW_OK, [.new_buffer .input ⟨[0x41], 1, 1, true⟩]⟩ [] .GST_FLOW_FLUSHING
      rfl rfl rfl (by decide)⟩

/-! ## Event claims -/

/-- C9 as stated fails on a table-of-contents event:
`gst_sub_sink_change_event` hands nothing to the parent class handler; it
unrefs the event and returns `TRUE`. -/
theorem change_event_toc_not_forwarded :
    forwarded_events
        (gst_sub_sink_change_event caps_host (gst_sub_sink_init (none : Option GstCaps))
          (.GST_EVENT_TOC ["chapter"] false)).effects = [] ∧
      (gst_sub_sink_change_event caps_host (gst_sub_sink_init (none : Option GstCaps))
          (.GST_EVENT_TOC ["chapter"] false)).effects
        = [.event_unref (.GST_EVENT_TOC ["chapter"] false)] ∧
      (gst_sub_sink_change_event caps_host (gst_sub_sink_init (none : Option GstCaps))
          (.GST_EVENT_TOC ["chapter"] false)).ret = true := by
  decide

/-- C9, amended: for every event of every kind other than table-of-contents
(flush-start, flush-stop, caps, segment, tag, any other kind),
`gst_sub_sink_change_event` hands the event itself to the parent class event
handler exactly once, whatever that handler returns, and leaves the private
struct as it was; a table-of-contents event is unreffed, is not handed to the
parent handler, and `TRUE` is returned. -/
theorem change_event_forwards_once {H : Type} (host : GstBaseSinkHost H) (sink : GstSubSink H)
    (event : GstEvent) (entries : List String) (updated : Bool) :
    ((∀ es u, event ≠ .GST_EVENT_TOC es u) →
      forwarded_events (gst_sub_sink_change_event host sink event).effects = [event]) ∧
      (gst_sub_sink_change_event host sink event).sink.priv = sink.priv ∧
      (gst_sub_sink_change_event host sink (.GST_EVENT_TOC entries updated)).effects
        = [.event_unref (.GST_EVENT_TOC entries updated)] ∧
      (gst_sub_sink_change_event host sink (.GST_EVENT_TOC entries updated)).ret = true := by
  refine ⟨?_, change_event_priv host sink event, rfl, rfl⟩
  intro hkind
  cases event with
  | GST_EVENT_TOC es u => exact absurd rfl (hkind es u)
  | GST_EVENT_FLUSH_START => rfl
  | GST_EVENT_FLUSH_STOP => rfl
  | GST_EVENT_OTHER n => rfl
  | GST_EVENT_CAPS c =>
    simp only [gst_sub_sink_change_event]
    cases (host.parent_event sink.base (.GST_EVENT_CAPS c)).2 <;> rfl
  | GST_EVENT_SEGMENT g =>
    simp only [gst_sub_sink_change_event]
    cases (host.parent_event sink.base (.GST_EVENT_SEGMENT g)).2 <;> rfl
  | GST_EVENT_TAG t =>
    simp only [gst_sub_sink_change_event]
    cases (host.parent_event sink.base (.GST_EVENT_TAG t)).2 <;> rfl

/-- Witness of the amended C9 on a caps event. -/
theorem change_event_forwards_once_witness :
    forwarded_events
        (gst_sub_sink_change_event caps_host (gst_sub_sink_init (none : Option GstCaps))
          (.GST_EVENT_CAPS ⟨"closedcaption/x-cea-708", [("format", "cc_data")]⟩)).effects
      = [.GST_EVENT_CAPS ⟨"closedcaption/x-cea-708", [("format", "cc_data")]⟩] :=
  (change_event_forwards_once caps_host (gst_sub_sink_init (none : Option GstCaps))
    (.GST_EVENT_CAPS ⟨"closedcaption/x-cea-708", [("format", "cc_data")]⟩) [] false).1
    (by intro es u h; cases h)

/-! ## Initial state claims -/

end SubSink
